import Mathlib

/-!
Verification of the WhatsApp AI Bridge relay (src/app.js) against its
natural-language specification.  The JavaScript program is shallowly
embedded: JS values are modelled by `JSValue` with JS truthiness, the
`connection.update` handler by a step function on an explicit bridge
state, and the HTTP handlers by pure functions from request data and an
environment-chosen socket/HTTP outcome to responses and side-effect
traces.
-/

namespace WABridge

/-- A JavaScript JSON-ish value as handled by the bridge: `jnull` models
both JS `null` and `undefined` results, objects are ordered field lists. -/
inductive JSValue where
  | jnull
  | jstr (s : String)
  | jnum (n : Int)
  | jbool (b : Bool)
  | jobj (fields : List (String × JSValue))

/-- JS truthiness: `null`, `""`, `0`, `false` are falsy; objects are truthy. -/
def truthy : JSValue → Bool
  | .jnull => false
  | .jstr s => !s.isEmpty
  | .jnum n => n != 0
  | .jbool b => b
  | .jobj _ => true

/-- Property access `v.k`: defined field of an object, `undefined`
(modelled as `none`) otherwise.  Primitive values have none of the
bridge's candidate fields as own properties. -/
def getField (v : JSValue) (k : String) : Option JSValue :=
  match v with
  | .jobj fields => fields.lookup k
  | _ => none

/-- Truthiness of `v.k` as tested by `if (v.k)`: an absent field is
`undefined`, hence falsy. -/
def fieldTruthy (v : JSValue) (k : String) : Bool :=
  match getField v k with
  | some w => truthy w
  | none => false

/-- `typeof v === 'string'`. -/
def isStr : JSValue → Bool
  | .jstr _ => true
  | _ => false

/-- The reply resolver of `handleIncomingMessage` (src/app.js lines
141-161): starting from `responseText = null`, under `if (n8nResponse)`
it tries `.reply`, `.message`, `.text`, a direct string value,
`.response`, `.data` in that order, each guarded by JS truthiness, and
returns the first assignment; `none` models `responseText` staying null. -/
def resolveReply (n8nResponse : JSValue) : Option JSValue :=
  if truthy n8nResponse then
    if fieldTruthy n8nResponse "reply" then getField n8nResponse "reply"
    else if fieldTruthy n8nResponse "message" then getField n8nResponse "message"
    else if fieldTruthy n8nResponse "text" then getField n8nResponse "text"
    else if isStr n8nResponse then some n8nResponse
    else if fieldTruthy n8nResponse "response" then getField n8nResponse "response"
    else if fieldTruthy n8nResponse "data" then getField n8nResponse "data"
    else none
  else none

/-- A candidate shape of the spec's Reply Resolver (§4.4): either a
recognized field name or the direct-string shape. -/
inductive Candidate where
  | field (name : String)
  | directString
  deriving Repr, DecidableEq

/-- The spec's ordered candidate list: "a 'reply' field, then 'message',
then 'text'", a direct string value, "then 'response', then 'data'". -/
def specCandidates : List Candidate :=
  [.field "reply", .field "message", .field "text", .directString,
   .field "response", .field "data"]

/-- What a candidate extracts from a response value, where matching
requires a truthy extracted value (the amended reading of "match"). -/
def candidateValue (v : JSValue) : Candidate → Option JSValue
  | .field k => match getField v k with
      | some w => if truthy w then some w else none
      | none => none
  | .directString => if isStr v && truthy v then some v else none

/-- First-match-wins extraction over an ordered candidate list. -/
def firstMatch (v : JSValue) : List Candidate → Option JSValue
  | [] => none
  | c :: cs =>
      match candidateValue v c with
      | some w => some w
      | none => firstMatch v cs

/-! ## Connection state machine (src/app.js lines 26-29 and 52-89) -/

/-- The `connection` field of a Baileys `connection.update` event, as far
as the handler inspects it. -/
inductive ConnStatus where
  | close
  | open
  deriving Repr, DecidableEq

/-- A `connection.update` event: optional QR token, optional connection
change, and the status code carried by `lastDisconnect?.error?.output?`
(`none` models any absent link of that optional chain). -/
structure ConnUpdate where
  qr : Option String
  connection : Option ConnStatus
  lastDisconnectStatus : Option Nat
  deriving Repr, DecidableEq

/-- `DisconnectReason.loggedOut` from the Baileys library (401). -/
def loggedOut : Nat := 401

/-- Model of `QRCode.toDataURL`: renders the pairing token as a data URI. -/
def toDataURL (qr : String) : String := "data:image/png;base64," ++ qr

/-- The mutable globals of the bridge relevant to connection handling,
plus a count of pending `setTimeout(connectToWhatsApp, 5000)` reconnect
timers (each `setTimeout` call adds one). -/
structure BridgeState where
  isConnected : Bool
  currentQR : Option String
  pendingReconnects : Nat
  deriving Repr, DecidableEq

/-- Process-start state: `isConnected = false`, `currentQR = null`,
no timer pending. -/
def initialState : BridgeState :=
  { isConnected := false, currentQR := none, pendingReconnects := 0 }

/-- The `connection.update` handler (src/app.js lines 52-89): a QR token,
when present, is rendered into `currentQR`; `close` clears the QR, marks
disconnected and schedules one reconnect timer unless the disconnect
status is `loggedOut`; `open` clears the QR and marks connected. -/
def onConnUpdate (s : BridgeState) (u : ConnUpdate) : BridgeState :=
  let s1 :=
    match u.qr with
    | some q => { s with currentQR := some (toDataURL q) }
    | none => s
  match u.connection with
  | some .close =>
      let s2 := { s1 with currentQR := none, isConnected := false }
      if u.lastDisconnectStatus ≠ some loggedOut then
        { s2 with pendingReconnects := s2.pendingReconnects + 1 }
      else s2
  | some .open => { s1 with currentQR := none, isConnected := true }
  | none => s1

/-- State reached from process start by a sequence of
`connection.update` events. -/
def runUpdates (us : List ConnUpdate) : BridgeState :=
  us.foldl onConnUpdate initialState

/-- States reachable when the protocol layer issues a pairing challenge
only while the bridge is not connected (the realistic environment; the
handler itself does not enforce this). -/
inductive GuardedReach : BridgeState → Prop where
  | init : GuardedReach initialState
  | step (s : BridgeState) (u : ConnUpdate) : GuardedReach s →
      (u.qr.isSome = true → s.isConnected = false) →
      GuardedReach (onConnUpdate s u)

/-- The `GET /qr-status` response body (src/app.js lines 387-393),
timestamp abstracted as a parameter. -/
def qrStatus (s : BridgeState) (now : String) : JSValue :=
  .jobj [("connected", .jbool s.isConnected),
         ("qr", match s.currentQR with | some q => .jstr q | none => .jnull),
         ("timestamp", .jstr now)]

/-! ## Inbound normalizer (src/app.js lines 93-136) -/

/-- The `key` of an inbound Baileys message. -/
structure MessageKey where
  remoteJid : String
  fromMe : Bool
  id : String
  deriving Repr, DecidableEq

/-- The content of `message.message`, identified by its first key as the
handler does via `Object.keys(message.message || {})[0]`: the three
recognized kinds carry their text field (`imageMessage.caption` may be
absent), `other` stands for any unrecognized first key. -/
inductive MessageContent where
  | conversation (text : String)
  | extendedText (text : String)
  | image (caption : Option String)
  | other (kind : String)
  deriving Repr, DecidableEq

/-- An inbound WhatsApp message envelope; `content = none` models a null
`message.message`. -/
structure WAMessage where
  key : MessageKey
  content : Option MessageContent
  deriving Repr, DecidableEq

/-- The payload forwarded to the webhook (src/app.js lines 128-134);
`fromId` is the JS field `from`, timestamp abstracted as a parameter. -/
structure NormalizedMessage where
  fromId : String
  text : String
  timestamp : String
  messageId : String
  messageType : String
  deriving Repr, DecidableEq

/-- Remove the first occurrence of `pat` from a character list, as JS
`String.prototype.replace` with a string pattern and empty replacement. -/
def removeFirstOcc (pat : List Char) : List Char → List Char
  | [] => []
  | c :: rest =>
      if pat.isPrefixOf (c :: rest) then (c :: rest).drop pat.length
      else c :: removeFirstOcc pat rest

/-- JS `s.replace(pat, '')`: only the first occurrence is removed. -/
def jsReplaceFirst (s pat : String) : String :=
  ⟨removeFirstOcc pat.data s.data⟩

/-- Whether `pat` occurs as a contiguous sublist, scanning like
`removeFirstOcc` does. -/
def occursIn (pat : List Char) : List Char → Bool
  | [] => pat.isEmpty
  | c :: rest => pat.isPrefixOf (c :: rest) || occursIn pat rest

/-- JS `String.prototype.trim`: strip leading and trailing whitespace,
computed over the character list. -/
def jsTrim (s : String) : String :=
  ⟨((s.data.dropWhile Char.isWhitespace).reverse.dropWhile
      Char.isWhitespace).reverse⟩

/-- `from.replace('@s.whatsapp.net', '').replace('@c.us', '')`
(src/app.js line 126). -/
def cleanJid (jid : String) : String :=
  jsReplaceFirst (jsReplaceFirst jid "@s.whatsapp.net") "@c.us"

/-- The text-extraction branch of `handleIncomingMessage` (lines
113-124): returns the message type name and raw text for the recognized
kinds, `none` where the code falls into the bare `return`.  An image
caption must be truthy (present and non-empty), since the code tests
`message.message.imageMessage.caption` itself. -/
def extractText : Option MessageContent → Option (String × String)
  | some (.conversation t) => some ("conversation", t)
  | some (.extendedText t) => some ("extendedTextMessage", t)
  | some (.image (some c)) =>
      if c.isEmpty then none else some ("imageMessage", c)
  | some (.image none) => none
  | some (.other _) => none
  | none => none

/-- Normalization performed by `handleIncomingMessage` before the webhook
call (lines 110-134): `none` when the envelope kind is unrecognized. -/
def normalize (msg : WAMessage) (now : String) : Option NormalizedMessage :=
  match extractText msg.content with
  | none => none
  | some (mt, t) =>
      some { fromId := cleanJid msg.key.remoteJid
             text := jsTrim t
             timestamp := now
             messageId := msg.key.id
             messageType := mt }

/-- A `messages.upsert` event as far as the handler inspects it. -/
structure UpsertEvent where
  messages : List WAMessage
  type : String
  deriving Repr, DecidableEq

/-- The `messages.upsert` handler's decision (src/app.js lines 93-100
composed with lines 110-134): the payload forwarded to the webhook, or
`none` when the event is dropped (no first message, self-originated
message, non-notify upsert, or unrecognized kind). -/
def onMessagesUpsert (ev : UpsertEvent) (now : String) : Option NormalizedMessage :=
  match ev.messages.head? with
  | none => none
  | some msg =>
      if !msg.key.fromMe && ev.type == "notify" then normalize msg now
      else none

/-! ## Webhook relay client (src/app.js lines 175-194) -/

/-- Outcome of the single `axios.post` call, chosen by the environment:
an HTTP response with status and parsed body, a transport error, or a
timeout. -/
inductive HttpOutcome where
  | response (status : Nat) (body : JSValue)
  | netErr
  | timeout

/-- Axios resolves only statuses in [200, 300) (default `validateStatus`). -/
def is2xx (status : Nat) : Bool := 200 ≤ status && status < 300

/-- The failure taxonomy logged by the `catch` block: `error.message`
distinguishes a network error, a timeout, and a non-2xx status. -/
inductive RelayError where
  | networkError
  | timeout
  | httpStatus (status : Nat)
  deriving Repr, DecidableEq

/-- How `sendToN8n` classifies a failed outcome; `none` for a 2xx
response, which does not throw. -/
def classifyFailure : HttpOutcome → Option RelayError
  | .response status _ => if is2xx status then none else some (.httpStatus status)
  | .netErr => some .networkError
  | .timeout => some .timeout

/-- What one `sendToN8n` call produces: the JS return value (`jnull`
models returning `null`), the number of HTTP attempts made, and the
error classification logged by the catch block (`none` when no error). -/
structure RelayResult where
  value : JSValue
  httpAttempts : Nat
  errorLogged : Option RelayError

/-- `sendToN8n` (src/app.js lines 175-194): one `axios.post`; on a 2xx
response returns `response.data`; on any throw (transport error,
timeout, non-2xx) logs the error and returns `null`.  No retry. -/
def sendToN8n (outcome : HttpOutcome) : RelayResult :=
  match outcome with
  | .response status body =>
      if is2xx status then { value := body, httpAttempts := 1, errorLogged := none }
      else { value := .jnull, httpAttempts := 1, errorLogged := some (.httpStatus status) }
  | .netErr => { value := .jnull, httpAttempts := 1, errorLogged := some .networkError }
  | .timeout => { value := .jnull, httpAttempts := 1, errorLogged := some .timeout }

/-- What `handleIncomingMessage` does after the relay call (src/app.js
lines 141-167): either a reply is dispatched to the original `from` JID
with the resolved text, or the no-reply warning is logged. -/
inductive ReplyAction where
  | sent (toJid : String) (text : JSValue)
  | warned

/-- The tail of `handleIncomingMessage` given the relay call's outcome:
resolve the reply from `sendToN8n`'s return value and dispatch it, or
warn and drop. -/
def afterRelay (fromJid : String) (outcome : HttpOutcome) : ReplyAction :=
  match resolveReply (sendToN8n outcome).value with
  | some v => .sent fromJid v
  | none => .warned

/-! ## Outbound dispatcher (src/app.js lines 197-204 and 396-435) -/

/-- Behavior of `sock.sendMessage`, chosen by the environment: resolves,
or rejects with an error message. -/
inductive SendResult where
  | ok
  | fail (errMessage : String)
  deriving Repr, DecidableEq

/-- Observable effect of one `sendWhatsAppReply` call: the
`(to, text)` arguments of every `sock.sendMessage` call made, and
whether the catch block logged a failure. -/
structure ReplyEffect where
  attempts : List (String × String)
  errorLogged : Bool
  deriving Repr, DecidableEq

/-- `sendWhatsAppReply` (src/app.js lines 197-204): calls
`sock.sendMessage(to, { text })` unconditionally — it takes no
connection-state input at all — and logs any failure. -/
def sendWhatsAppReply (toJid text : String) (sockResult : SendResult) : ReplyEffect :=
  match sockResult with
  | .ok => { attempts := [(toJid, text)], errorLogged := false }
  | .fail _ => { attempts := [(toJid, text)], errorLogged := true }

/-- The parsed `req.body` of `POST /send` as far as the handler reads it:
each field either absent or a string (`some ""` is present but falsy). -/
structure SendBody where
  toField : Option String
  text : Option String
  deriving Repr, DecidableEq

/-- JS falsiness of `to` / `text` as tested by `if (!to || !text)`. -/
def strFalsy : Option String → Bool
  | none => true
  | some s => s.isEmpty

/-- `to.includes('@') ? to : to + '@s.whatsapp.net'` (src/app.js line
413); the membership test runs over the character list. -/
def formatTo (t : String) : String :=
  if t.data.contains '@' then t else t ++ "@s.whatsapp.net"

/-- An HTTP response of the `/send` handler: status code and JSON body. -/
structure HttpResponse where
  status : Nat
  body : JSValue

/-- The `POST /send` handler (src/app.js lines 396-435): 503 when not
connected (checked first), 400 when `to` or `text` is falsy, otherwise
one `sock.sendMessage` attempt yielding 200 on success or 500 on throw.
Returns the response and the list of send attempts made. -/
def sendHandler (connected : Bool) (body : SendBody) (sockResult : SendResult)
    (now : String) : HttpResponse × List (String × String) :=
  if !connected then
    ({ status := 503,
       body := .jobj [("error", .jstr "WhatsApp not connected"),
                      ("status", .jstr "disconnected")] }, [])
  else if strFalsy body.toField || strFalsy body.text then
    ({ status := 400,
       body := .jobj [("error", .jstr "Missing required fields: to, text")] }, [])
  else
    match body.toField, body.text with
    | some t, some text =>
        let target := formatTo t
        match sockResult with
        | .ok =>
            ({ status := 200,
               body := .jobj [("success", .jbool true),
                              ("message", .jstr "Message sent successfully"),
                              ("to", .jstr t),
                              ("timestamp", .jstr now)] }, [(target, text)])
        | .fail errMessage =>
            ({ status := 500,
               body := .jobj [("error", .jstr "Failed to send message"),
                              ("details", .jstr errMessage)] }, [(target, text)])
    | _, _ =>
        ({ status := 400,
           body := .jobj [("error", .jstr "Missing required fields: to, text")] }, [])

/-! ## Helper lemmas -/

/-- A value that is falsy has no fields. -/
theorem getField_eq_none_of_not_truthy (v : JSValue) (k : String)
    (h : truthy v = false) : getField v k = none := by
  cases v <;> simp_all [truthy, getField]

/-- Field truthiness requires the value itself to be truthy (an object). -/
theorem truthy_of_fieldTruthy (v : JSValue) (k : String)
    (h : fieldTruthy v k = true) : truthy v = true := by
  cases v <;> simp_all [fieldTruthy, getField, truthy]

/-- A truthy field test exhibits a truthy field value. -/
theorem fieldTruthy_some (v : JSValue) (k : String)
    (h : fieldTruthy v k = true) :
    ∃ w, getField v k = some w ∧ truthy w = true := by
  unfold fieldTruthy at h
  cases hg : getField v k with
  | none => rw [hg] at h; exact absurd h (by simp)
  | some w => rw [hg] at h; exact ⟨w, rfl, h⟩

/-- A field candidate of the spec list extracts `v.k` exactly when the
code's guard `if (v.k)` passes. -/
theorem candidateValue_field (v : JSValue) (k : String) :
    candidateValue v (.field k) =
      if fieldTruthy v k then getField v k else none := by
  unfold candidateValue fieldTruthy
  cases hg : getField v k <;> simp [hg]

/-- The reply resolver of the code equals first-truthy-match extraction
over the spec's ordered candidate list. -/
theorem resolve_eq_firstMatch (v : JSValue) :
    resolveReply v = firstMatch v specCandidates := by
  cases hv : truthy v with
  | false =>
      have hg : ∀ k, getField v k = none :=
        fun k => getField_eq_none_of_not_truthy v k hv
      simp [resolveReply, specCandidates, firstMatch, candidateValue,
        hv, hg]
  | true =>
      unfold resolveReply
      simp only [hv, if_true]
      simp only [specCandidates, firstMatch, candidateValue_field]
      by_cases h1 : fieldTruthy v "reply"
      · obtain ⟨w, hw, _⟩ := fieldTruthy_some v "reply" h1
        simp [h1, hw]
      · simp only [h1, Bool.false_eq_true, if_false]
        by_cases h2 : fieldTruthy v "message"
        · obtain ⟨w, hw, _⟩ := fieldTruthy_some v "message" h2
          simp [h2, hw]
        · simp only [h2, Bool.false_eq_true, if_false]
          by_cases h3 : fieldTruthy v "text"
          · obtain ⟨w, hw, _⟩ := fieldTruthy_some v "text" h3
            simp [h3, hw]
          · simp only [h3, Bool.false_eq_true, if_false]
            by_cases h4 : isStr v
            · simp [candidateValue, h4, hv]
            · simp only [candidateValue, h4, hv, Bool.false_and,
                Bool.and_true, if_false]
              by_cases h5 : fieldTruthy v "response"
              · obtain ⟨w, hw, _⟩ := fieldTruthy_some v "response" h5
                simp [h5, hw]
              · simp only [h5, Bool.false_eq_true, if_false]
                by_cases h6 : fieldTruthy v "data"
                · obtain ⟨w, hw, _⟩ := fieldTruthy_some v "data" h6
                  simp [h6, hw]
                · simp [h6]

/-! ## Claim C1 -/

/-- C1, counterexample: the response object `{reply: "", message: "hi"}`
contains both a "reply" and a "message" field, yet the resolver returns
the "message" value, not the "reply" value — the code's guards test JS
truthiness, not field presence, so a falsy "reply" value is skipped. -/
theorem c1_counterexample :
    (getField (JSValue.jobj [("reply", .jstr ""), ("message", .jstr "hi")])
        "reply").isSome = true ∧
    (getField (JSValue.jobj [("reply", .jstr ""), ("message", .jstr "hi")])
        "message").isSome = true ∧
    resolveReply (JSValue.jobj [("reply", .jstr ""), ("message", .jstr "hi")]) =
      some (.jstr "hi") ∧
    getField (JSValue.jobj [("reply", .jstr ""), ("message", .jstr "hi")])
        "reply" = some (.jstr "") ∧
    (JSValue.jstr "hi") ≠ (JSValue.jstr "") := by
  refine ⟨rfl, rfl, rfl, rfl, ?_⟩
  intro h
  injection h with h'
  exact absurd h' (by decide)

/-- C1 (amended): extraction follows the fixed order reply, message,
text, direct string, response, data, where a candidate matches only when
its value is truthy; the first truthy match wins regardless of how many
recognized fields are present, and whenever the "reply" field is truthy
the resolver returns the "reply" value even if "message" is present. -/
theorem c1_reply_priority (v : JSValue) :
    resolveReply v = firstMatch v specCandidates ∧
    (fieldTruthy v "reply" = true → resolveReply v = getField v "reply") := by
  refine ⟨resolve_eq_firstMatch v, fun h => ?_⟩
  unfold resolveReply
  simp [truthy_of_fieldTruthy v "reply" h, h]

/-- C1 witness: on `{reply: "yes", message: "no"}` the theorem yields the
"reply" value. -/
theorem c1_reply_priority_witness :
    resolveReply (JSValue.jobj [("reply", .jstr "yes"), ("message", .jstr "no")]) =
      some (.jstr "yes") :=
  ((c1_reply_priority
      (JSValue.jobj [("reply", .jstr "yes"), ("message", .jstr "no")])).2
    (by rfl)).trans rfl

/-! ## Claim C2 -/

/-- C2, counterexample: two Closed events with the non-logout reason 428
(connection closed), the second arriving before the 5-second timer of
the first fires, leave two pending reconnect timers — the handler calls
`setTimeout` unconditionally on every such close, with no guard, so "at
most one pending reconnect timer" fails. -/
theorem c2_counterexample :
    (runUpdates [⟨none, some .close, some 428⟩,
                 ⟨none, some .close, some 428⟩]).pendingReconnects = 2 ∧
    ¬ (runUpdates [⟨none, some .close, some 428⟩,
                   ⟨none, some .close, some 428⟩]).pendingReconnects ≤ 1 := by
  exact ⟨rfl, by decide⟩

/-- C2 (amended): every Closed event with a non-logout reason schedules
exactly one new reconnect timer, and a logout close schedules none; the
handler keeps no guard, so n such Closed events leave n pending timers
rather than at most one. -/
theorem c2_one_timer_per_close (s : BridgeState) (u : ConnUpdate)
    (hclose : u.connection = some .close) :
    (onConnUpdate s u).pendingReconnects =
      (if u.lastDisconnectStatus ≠ some loggedOut then s.pendingReconnects + 1
       else s.pendingReconnects) := by
  obtain ⟨uq, uc, ud⟩ := u
  simp only at hclose
  subst hclose
  by_cases hd : ud = some loggedOut <;> cases uq <;> simp [onConnUpdate, hd]

/-- C2 witness: from process start, one non-logout close leaves exactly
one pending reconnect timer. -/
theorem c2_one_timer_per_close_witness :
    (onConnUpdate initialState ⟨none, some .close, some 428⟩).pendingReconnects
      = 1 := by
  have h := c2_one_timer_per_close initialState ⟨none, some .close, some 428⟩ rfl
  simpa using h

/-! ## Claim C8 -/

/-- C8, counterexample: from process start, an Opened event followed by a
pairing-challenge-only update leaves `isConnected = true` with a
non-null `currentQR` — the handler clears the QR on entering Connected
and Disconnected but does not guard against a challenge issued while
connected, so the stated reachable-state invariant fails. -/
theorem c8_counterexample :
    (runUpdates [⟨none, some .open, none⟩,
                 ⟨some "abc123", none, none⟩]).isConnected = true ∧
    (runUpdates [⟨none, some .open, none⟩,
                 ⟨some "abc123", none, none⟩]).currentQR ≠ none := by
  refine ⟨rfl, ?_⟩
  rw [show (runUpdates [⟨none, some .open, none⟩,
        ⟨some "abc123", none, none⟩]).currentQR =
      some (toDataURL "abc123") from rfl]
  exact Option.some_ne_none _

/-- C8 (amended): the pairing challenge is cleared on entering Connected
and on entering Disconnected, and in every state reachable under an
environment that issues pairing challenges only while not connected,
`connected = true` implies `currentQR = null`, so `/qr-status` never
reports a non-null qr together with `connected: true`; the handler
itself does not enforce that environment restriction. -/
theorem c8_qr_cleared (s : BridgeState) (h : GuardedReach s) (now : String) :
    (s.isConnected = true → s.currentQR = none) ∧
    (getField (qrStatus s now) "connected" = some (.jbool true) →
      getField (qrStatus s now) "qr" = some .jnull) := by
  have main : s.isConnected = true → s.currentQR = none := by
    induction h with
    | init => intro hc; exact absurd hc (by decide)
    | step s u hr hqr ih =>
        obtain ⟨uq, uc, ud⟩ := u
        intro hc
        cases uc with
        | none =>
            cases hq : uq with
            | none =>
                subst hq
                exact ih hc
            | some q =>
                subst hq
                have h1 : s.isConnected = false := hqr rfl
                have h2 : s.isConnected = true := hc
                rw [h1] at h2
                exact absurd h2 (by decide)
        | some st =>
            cases st
            · by_cases hd : ud = some loggedOut <;>
                cases uq <;> simp [onConnUpdate, hd]
            · exact rfl
  refine ⟨main, fun hconn => ?_⟩
  have h1 : some (JSValue.jbool s.isConnected) = some (JSValue.jbool true) :=
    hconn
  have h2 : s.isConnected = true := by
    injection h1 with h3
    injection h3
  show some (match s.currentQR with
             | some q => JSValue.jstr q
             | none => JSValue.jnull) = some JSValue.jnull
  rw [main h2]

/-- C8 witness: issuing a challenge while disconnected and then opening
the connection leaves a null QR in the reachable state. -/
theorem c8_qr_cleared_witness :
    (onConnUpdate (onConnUpdate initialState ⟨some "abc123", none, none⟩)
        ⟨none, some .open, none⟩).currentQR = none := by
  have hr : GuardedReach
      (onConnUpdate (onConnUpdate initialState ⟨some "abc123", none, none⟩)
        ⟨none, some .open, none⟩) :=
    GuardedReach.step _ _
      (GuardedReach.step _ _ GuardedReach.init (fun _ => rfl))
      (fun hh => by exact absurd hh (by decide))
  exact (c8_qr_cleared _ hr "T0").1 rfl

/-! ## Claim C3 -/

/-- C3, counterexample: a relay-reply-triggered send in a disconnected
scenario (the socket rejects with "Connection Closed") still performs
the network call — `sendWhatsAppReply` consults no connection state and
calls `sock.sendMessage` unconditionally, so "logs and drops the request
without attempting a send" fails for the relay-reply path. -/
theorem c3_counterexample :
    (sendWhatsAppReply "15551234567@s.whatsapp.net" "hi"
        (.fail "Connection Closed")).attempts =
      [("15551234567@s.whatsapp.net", "hi")] ∧
    (sendWhatsAppReply "15551234567@s.whatsapp.net" "hi"
        (.fail "Connection Closed")).attempts ≠ [] ∧
    (sendWhatsAppReply "15551234567@s.whatsapp.net" "hi"
        (.fail "Connection Closed")).errorLogged = true := by
  refine ⟨rfl, ?_, rfl⟩
  intro h
  simp [sendWhatsAppReply] at h

/-- C3 (amended): only the API path is gated on connection state — when
not connected, `POST /send` fails immediately with the distinguishable
503 status and performs no send attempt; the relay-reply path performs
exactly one `sock.sendMessage` attempt regardless of connection state
and logs (rather than surfaces) a failure. -/
theorem c3_dispatch_paths (connected : Bool) (body : SendBody)
    (r : SendResult) (now toJid text : String) :
    (connected = false →
      sendHandler connected body r now =
        ({ status := 503,
           body := .jobj [("error", .jstr "WhatsApp not connected"),
                          ("status", .jstr "disconnected")] }, [])) ∧
    (sendWhatsAppReply toJid text r).attempts = [(toJid, text)] ∧
    ((sendWhatsAppReply toJid text r).errorLogged =
      match r with | .ok => false | .fail _ => true) := by
  refine ⟨fun hc => ?_, ?_, ?_⟩
  · subst hc; rfl
  · cases r <;> rfl
  · cases r <;> rfl

/-- C3 witness: while disconnected, a `/send` request yields the 503
body and an empty list of send attempts. -/
theorem c3_dispatch_paths_witness :
    sendHandler false ⟨some "555", some "ping"⟩ .ok "T0" =
      ({ status := 503,
         body := .jobj [("error", .jstr "WhatsApp not connected"),
                        ("status", .jstr "disconnected")] }, []) :=
  (c3_dispatch_paths false ⟨some "555", some "ping"⟩ .ok "T0" "j" "x").1 rfl

/-! ## Claim C9 -/

/-- C9: `POST /send` returns 503 with exactly
`{error: "WhatsApp not connected", status: "disconnected"}` whenever not
connected (checked before anything else), 400 when `to` or `text` is
missing, 200 with `{success, message, to, timestamp}` on a successful
send, and 500 with `{error, details}` when the send throws. -/
theorem c9_send_endpoint (connected : Bool) (body : SendBody)
    (r : SendResult) (now : String) :
    (connected = false →
      sendHandler connected body r now =
        ({ status := 503,
           body := .jobj [("error", .jstr "WhatsApp not connected"),
                          ("status", .jstr "disconnected")] }, [])) ∧
    (connected = true → body.toField = none ∨ body.text = none →
      (sendHandler connected body r now).1 =
        { status := 400,
          body := .jobj [("error",
            .jstr "Missing required fields: to, text")] }) ∧
    (∀ t x, connected = true → body.toField = some t → body.text = some x →
      t.isEmpty = false → x.isEmpty = false → r = .ok →
      sendHandler connected body r now =
        ({ status := 200,
           body := .jobj [("success", .jbool true),
                          ("message", .jstr "Message sent successfully"),
                          ("to", .jstr t),
                          ("timestamp", .jstr now)] },
         [(formatTo t, x)])) ∧
    (∀ t x e, connected = true → body.toField = some t → body.text = some x →
      t.isEmpty = false → x.isEmpty = false → r = .fail e →
      sendHandler connected body r now =
        ({ status := 500,
           body := .jobj [("error", .jstr "Failed to send message"),
                          ("details", .jstr e)] },
         [(formatTo t, x)])) := by
  refine ⟨fun hc => by subst hc; rfl, fun hc hm => ?_, ?_, ?_⟩
  · subst hc
    obtain ⟨bt, bx⟩ := body
    cases hm with
    | inl h => simp only at h; subst h; rfl
    | inr h =>
        simp only at h
        subst h
        cases bt with
        | none => rfl
        | some t =>
            simp [sendHandler, strFalsy]
  · intro t x hc ht hx hte hxe hr
    subst hc hr
    obtain ⟨bt, bx⟩ := body
    simp only at ht hx
    subst ht hx
    simp [sendHandler, strFalsy, hte, hxe]
  · intro t x e hc ht hx hte hxe hr
    subst hc hr
    obtain ⟨bt, bx⟩ := body
    simp only at ht hx
    subst ht hx
    simp [sendHandler, strFalsy, hte, hxe]

/-- C9 witness: the spec's scenario — `POST /send {to: "555", text:
"ping"}` while disconnected yields exactly the 503 disconnected body;
and while connected with a successful socket send it yields the 200
body, with the target fully qualified. -/
theorem c9_send_endpoint_witness :
    sendHandler false ⟨some "555", some "ping"⟩ (.fail "boom") "T0" =
      ({ status := 503,
         body := .jobj [("error", .jstr "WhatsApp not connected"),
                        ("status", .jstr "disconnected")] }, []) ∧
    sendHandler true ⟨some "555", some "ping"⟩ .ok "T0" =
      ({ status := 200,
         body := .jobj [("success", .jbool true),
                        ("message", .jstr "Message sent successfully"),
                        ("to", .jstr "555"),
                        ("timestamp", .jstr "T0")] },
       [("555@s.whatsapp.net", "ping")]) := by
  constructor
  · exact (c9_send_endpoint false ⟨some "555", some "ping"⟩ (.fail "boom") "T0").1 rfl
  · have h := (c9_send_endpoint true ⟨some "555", some "ping"⟩ .ok
      "T0").2.2.1 "555" "ping" rfl rfl rfl (by decide) (by decide) rfl
    rw [h]
    rfl

/-! ## Suffix-stripping lemmas for `cleanJid` -/

/-- If the pattern does not occur, removing its first occurrence is the
identity. -/
theorem removeFirstOcc_of_not_occurs (pat : List Char) (xs : List Char)
    (h : occursIn pat xs = false) : removeFirstOcc pat xs = xs := by
  induction xs with
  | nil => rfl
  | cons c rest ih =>
      unfold occursIn at h
      rw [Bool.or_eq_false_iff] at h
      unfold removeFirstOcc
      simp [h.1, ih h.2]

/-- Removing a pattern that occurs exactly once, as the appended suffix,
recovers the original: the hypothesis rules out any occurrence starting
before the final position (including one straddling the boundary). -/
theorem removeFirstOcc_append_self (pat : List Char) (xs : List Char)
    (h : occursIn pat (xs ++ pat.dropLast) = false) :
    removeFirstOcc pat (xs ++ pat) = xs := by
  induction xs with
  | nil =>
      cases pat with
      | nil => rfl
      | cons p ps =>
          have hpre : (p :: ps).isPrefixOf (p :: ps) = true :=
            List.isPrefixOf_iff_prefix.mpr (List.prefix_refl _)
          unfold removeFirstOcc
          rw [List.nil_append]
          simp [hpre, List.drop_length]
  | cons c rest ih =>
      rw [List.cons_append] at h
      unfold occursIn at h
      rw [Bool.or_eq_false_iff] at h
      obtain ⟨hp, hrest⟩ := h
      rw [← List.cons_append] at hp
      have hp2 : pat.isPrefixOf ((c :: rest) ++ pat) = false := by
        cases pat with
        | nil => exact absurd hp (by simp [List.isPrefixOf])
        | cons p ps =>
            by_contra hcon
            rw [Bool.not_eq_false] at hcon
            have h1 : (p :: ps) <+: ((c :: rest) ++ (p :: ps)) :=
              List.isPrefixOf_iff_prefix.mp hcon
            have h2 : ((c :: rest) ++ (p :: ps).dropLast) <+:
                ((c :: rest) ++ (p :: ps)) :=
              (List.prefix_append_right_inj (c :: rest)).mpr
                (List.dropLast_prefix _)
            have hlen : (p :: ps).length ≤
                ((c :: rest) ++ (p :: ps).dropLast).length := by
              simp [List.length_append, List.length_dropLast]
            have h3 : (p :: ps) <+: ((c :: rest) ++ (p :: ps).dropLast) :=
              List.prefix_of_prefix_length_le h1 h2 hlen
            rw [List.isPrefixOf_iff_prefix.mpr h3] at hp
            exact absurd hp (by simp)
      rw [List.cons_append]
      unfold removeFirstOcc
      rw [← List.cons_append, hp2]
      simp [ih hrest]

/-- Appending `@s.whatsapp.net` and cleaning strips it, provided the
suffix does not otherwise occur and the bare id contains no `@c.us`. -/
theorem cleanJid_strip_wa (n : String)
    (h1 : occursIn "@s.whatsapp.net".data
      (n.data ++ "@s.whatsapp.net".data.dropLast) = false)
    (h2 : occursIn "@c.us".data n.data = false) :
    cleanJid (n ++ "@s.whatsapp.net") = n := by
  unfold cleanJid jsReplaceFirst
  rw [String.data_append]
  rw [removeFirstOcc_append_self _ _ h1]
  show (⟨removeFirstOcc "@c.us".data n.data⟩ : String) = n
  rw [removeFirstOcc_of_not_occurs _ _ h2]

/-- Appending `@c.us` and cleaning strips it, provided neither suffix
occurs elsewhere in the address. -/
theorem cleanJid_strip_cus (n : String)
    (h1 : occursIn "@s.whatsapp.net".data (n.data ++ "@c.us".data) = false)
    (h2 : occursIn "@c.us".data
      (n.data ++ "@c.us".data.dropLast) = false) :
    cleanJid (n ++ "@c.us") = n := by
  unfold cleanJid jsReplaceFirst
  rw [String.data_append]
  rw [removeFirstOcc_of_not_occurs _ _ h1]
  show (⟨removeFirstOcc "@c.us".data (n.data ++ "@c.us".data)⟩ : String) = n
  rw [removeFirstOcc_append_self _ _ h2]

/-! ## Claim C4 -/

/-- C4: for the three recognized envelope kinds (plain conversation,
extended text, image with a non-empty caption) `normalize` yields the
payload with trimmed text and the sender cleaned of transport suffixes;
for unrecognized kinds, a caption-less image, or a null content it
yields `none`; and `cleanJid` strips a terminal `@s.whatsapp.net` or
`@c.us` whenever the suffix occurs nowhere else in the address. -/
theorem c4_normalize_cases (key : MessageKey) (now t c k : String) :
    (normalize ⟨key, some (.conversation t)⟩ now =
      some ⟨cleanJid key.remoteJid, jsTrim t, now, key.id, "conversation"⟩) ∧
    (normalize ⟨key, some (.extendedText t)⟩ now =
      some ⟨cleanJid key.remoteJid, jsTrim t, now, key.id,
            "extendedTextMessage"⟩) ∧
    (c.isEmpty = false →
      normalize ⟨key, some (.image (some c))⟩ now =
        some ⟨cleanJid key.remoteJid, jsTrim c, now, key.id,
              "imageMessage"⟩) ∧
    (normalize ⟨key, some (.other k)⟩ now = none) ∧
    (normalize ⟨key, some (.image none)⟩ now = none) ∧
    (normalize ⟨key, none⟩ now = none) ∧
    (∀ n : String,
      occursIn "@s.whatsapp.net".data
        (n.data ++ "@s.whatsapp.net".data.dropLast) = false →
      occursIn "@c.us".data n.data = false →
      cleanJid (n ++ "@s.whatsapp.net") = n) ∧
    (∀ n : String,
      occursIn "@s.whatsapp.net".data (n.data ++ "@c.us".data) = false →
      occursIn "@c.us".data (n.data ++ "@c.us".data.dropLast) = false →
      cleanJid (n ++ "@c.us") = n) := by
  refine ⟨rfl, rfl, fun hc => ?_, rfl, rfl, rfl,
    fun n ha hb => cleanJid_strip_wa n ha hb,
    fun n ha hb => cleanJid_strip_cus n ha hb⟩
  unfold normalize extractText
  simp [hc]

/-- C4 witness: a conversation from `123@s.whatsapp.net` normalizes to
sender `123` with trimmed text, a captioned image from `99@c.us`
normalizes to sender `99`, and an unrecognized sticker kind is dropped. -/
theorem c4_normalize_cases_witness :
    normalize ⟨⟨"123@s.whatsapp.net", false, "MID1"⟩,
        some (.conversation "  hello  ")⟩ "T1" =
      some ⟨"123", "hello", "T1", "MID1", "conversation"⟩ ∧
    cleanJid ("123" ++ "@s.whatsapp.net") = "123" ∧
    normalize ⟨⟨"99@c.us", false, "MID2"⟩,
        some (.image (some "cap"))⟩ "T2" =
      some ⟨"99", "cap", "T2", "MID2", "imageMessage"⟩ ∧
    normalize ⟨⟨"123@s.whatsapp.net", false, "MID1"⟩,
        some (.other "stickerMessage")⟩ "T1" = none := by
  refine ⟨?_, ?_, ?_, ?_⟩
  · have h := (c4_normalize_cases ⟨"123@s.whatsapp.net", false, "MID1"⟩
      "T1" "  hello  " "" "").1
    rw [h]; decide
  · exact (c4_normalize_cases ⟨"", false, ""⟩ "" "" "" "").2.2.2.2.2.2.1
      "123" (by decide) (by decide)
  · have h := (c4_normalize_cases ⟨"99@c.us", false, "MID2"⟩
      "T2" "" "cap" "").2.2.1 (by decide)
    rw [h]; decide
  · exact (c4_normalize_cases ⟨"123@s.whatsapp.net", false, "MID1"⟩
      "T1" "" "" "stickerMessage").2.2.2.1

/-! ## Claim C5 -/

/-- C5, counterexample: an image envelope whose caption field is present
but equal to the empty string — a recognized text field that is empty —
is dropped (`normalize` returns `none`) rather than forwarded, because
the code's guard `message.message.imageMessage.caption` tests the
caption's truthiness, and `""` is falsy. -/
theorem c5_counterexample :
    normalize ⟨⟨"123@s.whatsapp.net", false, "MID3"⟩,
        some (.image (some ""))⟩ "T3" = none ∧
    (some "" : Option String) ≠ none := by
  exact ⟨rfl, by decide⟩

/-- C5 (amended): text that is empty after trimming is still forwarded
for conversation and extended-text envelopes, and for an image whose
caption is non-empty whitespace; a message is dropped for emptiness
exactly when the recognized text field is absent or, for an image
caption, is the empty string (falsy, treated as no caption). -/
theorem c5_empty_text_forwarded (key : MessageKey) (now t c : String) :
    (jsTrim t = "" → normalize ⟨key, some (.conversation t)⟩ now =
      some ⟨cleanJid key.remoteJid, "", now, key.id, "conversation"⟩) ∧
    (jsTrim t = "" → normalize ⟨key, some (.extendedText t)⟩ now =
      some ⟨cleanJid key.remoteJid, "", now, key.id,
            "extendedTextMessage"⟩) ∧
    (c.isEmpty = false → jsTrim c = "" →
      normalize ⟨key, some (.image (some c))⟩ now =
        some ⟨cleanJid key.remoteJid, "", now, key.id, "imageMessage"⟩) ∧
    (normalize ⟨key, some (.image (some ""))⟩ now = none) := by
  refine ⟨fun h => ?_, fun h => ?_, fun hc h => ?_, rfl⟩
  · rw [show normalize ⟨key, some (.conversation t)⟩ now =
        some ⟨cleanJid key.remoteJid, jsTrim t, now, key.id, "conversation"⟩
      from rfl, h]
  · rw [show normalize ⟨key, some (.extendedText t)⟩ now =
        some ⟨cleanJid key.remoteJid, jsTrim t, now, key.id,
              "extendedTextMessage"⟩
      from rfl, h]
  · unfold normalize extractText
    simp [hc, h]

/-- C5 witness: a whitespace-only conversation and a whitespace-only
image caption are both forwarded with empty text. -/
theorem c5_empty_text_forwarded_witness :
    normalize ⟨⟨"123@s.whatsapp.net", false, "MID4"⟩,
        some (.conversation " ")⟩ "T4" =
      some ⟨"123", "", "T4", "MID4", "conversation"⟩ ∧
    normalize ⟨⟨"123@s.whatsapp.net", false, "MID4"⟩,
        some (.image (some " "))⟩ "T4" =
      some ⟨"123", "", "T4", "MID4", "imageMessage"⟩ := by
  constructor
  · have h := (c5_empty_text_forwarded ⟨"123@s.whatsapp.net", false, "MID4"⟩
      "T4" " " "").1 (by decide)
    rw [h]; decide
  · have h := (c5_empty_text_forwarded ⟨"123@s.whatsapp.net", false, "MID4"⟩
      "T4" "" " ").2.2.1 (by decide) (by decide)
    rw [h]; decide

/-! ## Claim C6 -/

/-- C6: a self-originated inbound event (`key.fromMe = true`) is never
forwarded — the upsert handler's guard drops it before normalization, so
the pipeline produces no webhook payload and no feedback loop. -/
theorem c6_self_originated_dropped (ev : UpsertEvent) (msg : WAMessage)
    (now : String) (hhead : ev.messages.head? = some msg)
    (hme : msg.key.fromMe = true) :
    onMessagesUpsert ev now = none := by
  unfold onMessagesUpsert
  rw [hhead]
  simp [hme]

/-- C6 witness: a notify upsert whose first message is self-originated
yields no forwarded payload. -/
theorem c6_self_originated_dropped_witness :
    onMessagesUpsert ⟨[⟨⟨"123@s.whatsapp.net", true, "MID5"⟩,
        some (.conversation "hello")⟩], "notify"⟩ "T5" = none :=
  c6_self_originated_dropped _ _ "T5" rfl rfl

/-! ## Claim C7 -/

/-- C7: on any transport error, timeout, or non-2xx response the relay
call fails — `sendToN8n` makes exactly one HTTP attempt (no retry),
returns the code's failure value `null` with the failure classification
logged, and the message pipeline then dispatches no reply (the no-reply
warning path is taken), dropping the inbound message. -/
theorem c7_relay_failure (outcome : HttpOutcome) (e : RelayError)
    (fromJid : String) (h : classifyFailure outcome = some e) :
    sendToN8n outcome =
      { value := .jnull, httpAttempts := 1, errorLogged := some e } ∧
    afterRelay fromJid outcome = .warned := by
  cases outcome with
  | response status body =>
      simp only [classifyFailure] at h
      by_cases h2 : is2xx status
      · rw [if_pos h2] at h
        exact absurd h (by simp)
      · rw [if_neg h2] at h
        injection h with he
        subst he
        constructor
        · simp only [sendToN8n]
          rw [if_neg h2]
        · simp only [afterRelay, sendToN8n]
          rw [if_neg h2]
          rfl
  | netErr =>
      injection h with he
      subst he
      exact ⟨rfl, rfl⟩
  | timeout =>
      injection h with he
      subst he
      exact ⟨rfl, rfl⟩

/-- C7 witness: an HTTP 500 from the webhook yields one attempt, a null
return with the status logged, and no dispatched reply. -/
theorem c7_relay_failure_witness :
    sendToN8n (.response 500 (.jstr "oops")) =
      { value := .jnull, httpAttempts := 1,
        errorLogged := some (.httpStatus 500) } ∧
    afterRelay "123@s.whatsapp.net" (.response 500 (.jstr "oops")) =
      .warned :=
  c7_relay_failure (.response 500 (.jstr "oops")) (.httpStatus 500)
    "123@s.whatsapp.net" rfl

/-! ## Claim C10 -/

/-- C10, counterexample: a 2xx response whose parsed body is the falsy
value `""` does not make the relay function return `null` — it returns
the body itself (`response.data`), so "the relay function returns null
in both cases" fails for falsy non-null bodies. -/
theorem c10_counterexample :
    (sendToN8n (.response 200 (.jstr ""))).value = JSValue.jstr "" ∧
    (sendToN8n (.response 200 (.jstr ""))).value ≠ JSValue.jnull := by
  refine ⟨rfl, ?_⟩
  rw [show (sendToN8n (.response 200 (.jstr ""))).value = JSValue.jstr ""
    from rfl]
  intro h
  exact JSValue.noConfusion h

/-- C10 (amended): a 2xx relay response with a falsy parsed body is
observably indistinguishable from a failed relay call in the pipeline —
both take the warning path and dispatch no reply — but the relay
function returns the falsy body itself, which equals the failure value
`null` exactly when the body is `null`. -/
theorem c10_falsy_indistinguishable (body : JSValue) (fromJid : String)
    (status : Nat) (h2xx : is2xx status = true)
    (hfalsy : truthy body = false) :
    afterRelay fromJid (.response status body) = .warned ∧
    afterRelay fromJid .netErr = .warned ∧
    (sendToN8n (.response status body)).value = body ∧
    (body = .jnull →
      (sendToN8n (.response status body)).value = (sendToN8n .netErr).value) := by
  have hval : (sendToN8n (.response status body)).value = body := by
    simp only [sendToN8n]
    rw [if_pos h2xx]
  have hres : resolveReply body = none := by
    unfold resolveReply
    rw [hfalsy]
    rfl
  refine ⟨?_, rfl, hval, fun hnull => ?_⟩
  · unfold afterRelay
    rw [hval, hres]
  · rw [hval, hnull]
    rfl

/-- C10 witness: a 2xx response with body `false` takes the warning path
exactly like a network error, while its relay return value is the body. -/
theorem c10_falsy_indistinguishable_witness :
    afterRelay "123@s.whatsapp.net" (.response 200 (.jbool false)) =
      .warned ∧
    (sendToN8n (.response 200 (.jbool false))).value = JSValue.jbool false := by
  have h := c10_falsy_indistinguishable (.jbool false) "123@s.whatsapp.net"
    200 (by decide) (by decide)
  exact ⟨h.1, h.2.2.1⟩

end WABridge
